import Mathlib

/-!
Shallow embedding of `src/app.py` (Fusion-Tomato-Trailers), a Flask service that
resolves an IMDb-style id to a title via the TMDB find API, searches Rotten
Tomatoes for a matching page, scrapes its embedded videos payload and returns
trailer links.  External effects (HTTP responses, parsed HTML, JSON decoding)
are modelled as explicit inputs gathered in an `Env`; uncaught Python
exceptions are modelled with `Except PyErr`.
-/

set_option autoImplicit false

namespace TomatoTrailers

/-- Python exceptions that `get_trailer` does not catch: a raised one aborts the
request (Flask then emits its generic error page, not one of the JSON bodies). -/
inductive PyErr where
  /-- `requests` network failure (e.g. `ConnectionError`) -/
  | connectionError
  /-- `response.raise_for_status()` on a non-2xx search response -/
  | httpError
  /-- calling `.text` / `.lower()` on `None` -/
  | attributeError
  /-- subscripting `None`, e.g. `row.find(..)["href"]` when the anchor is absent -/
  | typeError
deriving Repr, DecidableEq

/-- One `<search-page-media-row data-qa="data-row">` element of the Rotten
Tomatoes search page, reduced to the pieces `fetch_rotten_tomatoes` reads.
`none` models the element/attribute being absent. -/
structure SearchRow where
  /-- text of the `<a data-qa="info-name">` anchor; `none` = anchor missing -/
  info_name : Option String
  /-- `href` of the `<a data-qa="thumbnail-link">` anchor; `none` = anchor missing -/
  thumbnail_href : Option String
  /-- `src` of the first `<img>`; `none` = no `<img>` in the row -/
  img_src : Option String
  /-- the `cast` attribute of the row -/
  cast : Option String
  /-- the `release-year` attribute of the row -/
  release_year : Option String
  /-- the `tomatometer-score` attribute of the row -/
  tomatometer_score : Option String
  /-- the `tomatometer-is-certified` attribute of the row -/
  tomatometer_is_certified : Option String
deriving Repr, DecidableEq

/-- The Rotten Tomatoes search response: `ok` is whether the HTTP status was a
success (`raise_for_status` raises exactly when it is not), `rows` the parsed
`search-page-media-row` elements. -/
structure SearchPage where
  ok : Bool
  rows : List SearchRow
deriving Repr, DecidableEq

/-- The dictionary `fetch_rotten_tomatoes` appends to `results` for one row. -/
structure RTCandidate where
  title : String
  link : String
  image_src : String
  cast : List String
  release_year : Option String
  tomatometer_score : Option String
  tomatometer_certified : Bool
deriving Repr, DecidableEq

/-- One entry of the JSON payload in the `<script id="videos">` tag, reduced to
the keys `get_trailer` reads.  `videoType` is `none` when the key is absent
(the code reads it with `video.get("videoType", "")`). -/
structure RTVideo where
  videoType : Option String
  file : String
  title : String
  thumbnail : String
deriving Repr, DecidableEq

/-- A fetched videos page as observed by `fetch_rt_videos`:
`json_script = none` models a page with no `<script id="videos">` tag;
`some none` a tag whose text `json.loads` rejects (`JSONDecodeError`);
`some (some vs)` a tag whose text parses to the video list `vs`. -/
structure VideosPage where
  json_script : Option (Option (List RTVideo))
deriving Repr, DecidableEq

/-- One element of the TMDB find response's `movie_results` (or `tv_results`)
array, reduced to the keys the code reads with `.get`; `none` = key absent. -/
structure TMDBResult where
  id : Option Int
  release_date : Option String
  title : Option String
deriving Repr, DecidableEq

/-- The TMDB find response: HTTP status plus the decoded JSON body's
`movie_results` and `tv_results` arrays (each defaulting to `[]` when the key
is absent, as `data.get("movie_results", [])` does). -/
structure TMDBResp where
  status_code : Nat
  movie_results : List TMDBResult
  tv_results : List TMDBResult
deriving Repr, DecidableEq

/-- The external world as the request observes it: each outbound URL is mapped
to the response the remote end would give.  `Except PyErr` on the scraped pages
lets an input model a network failure of that `requests.get` call. -/
structure Env where
  /-- TMDB find endpoint, keyed by the full request URL -/
  tmdb_find : String → TMDBResp
  /-- Rotten Tomatoes search, keyed by the full search URL -/
  search_page : String → Except PyErr SearchPage
  /-- a Rotten Tomatoes `<page>/videos` fetch, keyed by the page URL -/
  videos_page : String → Except PyErr VideosPage

/-- Python truthiness of an optional string: `None` and `""` are falsy. -/
def optStrTruthy : Option String → Bool
  | none => false
  | some s => !(s == "")

/-- Python truthiness of an optional integer: `None` and `0` are falsy. -/
def optIntTruthy : Option Int → Bool
  | none => false
  | some n => !(n == 0)

/-- Python truthiness of `fetch_rt_videos`'s result: `None` and `[]` are falsy. -/
def videosTruthy : Option (List RTVideo) → Bool
  | none => false
  | some vs => !vs.isEmpty

/-- Whether `needle` is an initial segment of `hay` (character lists). -/
def listStarts : List Char → List Char → Bool
  | [], _ => true
  | _ :: _, [] => false
  | a :: as, b :: bs => a == b && listStarts as bs

/-- Whether `needle` occurs as a contiguous run inside `hay`. -/
def listIn (needle : List Char) : List Char → Bool
  | [] => listStarts needle []
  | b :: bs => listStarts needle (b :: bs) || listIn needle bs

/-- Python's `needle in hay` on strings: contiguous-substring containment
(the empty needle is contained in every string). -/
def pyInStr (needle hay : String) : Bool :=
  listIn needle.toList hay.toList

/-- Python's f-string rendering of an optional string: `None` prints as "None". -/
def pyStr : Option String → String
  | none => "None"
  | some s => s

/-- Python's `s.split(sep)` for a one-character separator, on character lists:
`"".split(".") = [""]`, `".x".split(".") = ["", "x"]`. -/
def pySplit (sep : Char) : List Char → List (List Char)
  | [] => [[]]
  | c :: cs =>
    let rest := pySplit sep cs
    if c == sep then
      [] :: rest
    else
      match rest with
      | [] => [[c]]
      | r :: rs => (c :: r) :: rs

/-- `media_id.split(".")[0]`: everything before the first dot (the whole string
when it has no dot). -/
def stripExt (s : String) : String :=
  String.mk ((pySplit '.' s.data).headD [])

/-- Python's `s.startswith(p)`. -/
def pyStartsWith (s p : String) : Bool :=
  listStarts p.data s.data

/-- Python's `s.lower()` restricted to ASCII case (sufficient for the titles
compared here). -/
def pyLower (s : String) : String :=
  String.mk (s.data.map Char.toLower)

/-- Python's `s.strip()`: drop leading and trailing whitespace. -/
def pyStrip (s : String) : String :=
  String.mk (((s.data.dropWhile Char.isWhitespace).reverse.dropWhile
    Char.isWhitespace).reverse)

/-- The body of the `for row in media_rows` loop of `fetch_rotten_tomatoes`
(src/app.py lines 32-51) for one row.  A row whose `info-name` anchor is
missing raises `AttributeError` (`None.text`); a missing `thumbnail-link`
anchor or `<img>` raises `TypeError` (`None[...]`).  The raised exception
aborts the whole loop, which `Except` models by `mapM` below. -/
def parseRow (row : SearchRow) : Except PyErr RTCandidate :=
  match row.info_name with
  | none => .error .attributeError
  | some t =>
    match row.thumbnail_href with
    | none => .error .typeError
    | some l =>
      match row.img_src with
      | none => .error .typeError
      | some s =>
        let cast := match row.cast with
          | none => []
          | some c => ((pySplit ',' c.data).map (fun actor => pyStrip (String.mk actor)))
        .ok { title := pyStrip t, link := l, image_src := s, cast := cast,
              release_year := row.release_year,
              tomatometer_score := row.tomatometer_score,
              tomatometer_certified := row.tomatometer_is_certified.getD "false" == "true" }

/-- `fetch_rotten_tomatoes(query)` (src/app.py lines 15-54): build the search
URL, fetch it (a network failure propagates), `raise_for_status()` on a bad
status, then parse every media row; the first row that raises aborts the whole
search with that exception. -/
def fetch_rotten_tomatoes (env : Env) (query : String) : Except PyErr (List RTCandidate) :=
  match env.search_page ("https://www.rottentomatoes.com/search?search=" ++ query) with
  | .error e => .error e
  | .ok page =>
    if !page.ok then
      .error .httpError
    else
      page.rows.mapM parseRow

/-- `fetch_rt_videos(rtPage)` (src/app.py lines 59-78): fetch the page (a
network failure propagates; a bad status does not raise since there is no
`raise_for_status`), look for `<script id="videos">`, and parse its text as
JSON.  Both a missing tag and a `JSONDecodeError` merely print a diagnostic
and fall through, returning `None`. -/
def fetch_rt_videos (env : Env) (rtPage : String) : Except PyErr (Option (List RTVideo)) :=
  match env.videos_page rtPage with
  | .error e => .error e
  | .ok page =>
    match page.json_script with
    | none => .ok none
    | some none => .ok none
    | some (some json_object) => .ok (some json_object)

/-- The `for result in rtResults` matching loop of `get_trailer`
(src/app.py lines 135-141): the first candidate with a truthy `release_year`
that is a substring of a truthy `release_date` and whose title equals the TMDB
title case-insensitively wins.  `title` is the TMDB result's optional title;
when it is `None`, reaching the title comparison raises `AttributeError`
(`None.lower()`). -/
def title_match (title : Option String) (release_date : Option String) :
    List RTCandidate → Except PyErr (Option RTCandidate)
  | [] => .ok none
  | result :: rest =>
    if optStrTruthy result.release_year && optStrTruthy release_date
        && pyInStr (result.release_year.getD "") (release_date.getD "") then
      match title with
      | none => .error .attributeError
      | some t =>
        if pyLower result.title == pyLower t then
          .ok (some result)
        else
          title_match title release_date rest
    else
      title_match title release_date rest

/-- A formatted trailer entry of the success payload (src/app.py lines 161-165). -/
structure TrailerLink where
  trailers : String
  provider : String
  thumbnail : String
deriving Repr, DecidableEq

/-- The `meta` object of the success payload (src/app.py lines 167-174);
`name` is the TMDB title, rendered as JSON `null` when absent. -/
structure MetaPayload where
  id : String
  type : String
  name : Option String
  links : List TrailerLink
deriving Repr, DecidableEq

/-- A response of the `/meta/...` view: either a JSON error body
`{"error": msg}` with an explicit status code, or the 200 success payload. -/
inductive Resp where
  | err (msg : String) (code : Nat)
  | meta (payload : MetaPayload)
deriving Repr, DecidableEq

/-- `get_trailer(media_type, media_id)` (src/app.py lines 100-176), the view
body under the cache decorator.  Early `return`s of the Python code are the
nested `else` branches; an uncaught exception from the scraping helpers is an
`Except.error`. -/
def get_trailer (env : Env) (media_type media_id : String) : Except PyErr Resp :=
  if media_type != "movie" && media_type != "series" then
    .ok (.err "Unsupported media type" 400)
  else
    let media_id := stripExt media_id
    if !pyStartsWith media_id "tt" then
      .ok (.err "Invalid media ID format" 400)
    else
      let response := env.tmdb_find
        ("https://api.themoviedb.org/3/find/" ++ media_id ++ "?external_source=imdb_id")
      if response.status_code != 200 then
        .ok (.err "Failed to fetch data from TMDB" 500)
      else
        let data := response.movie_results
        let tmdb : Option Int := match data.head? with
          | some first => first.id
          | none => none
        if !optIntTruthy tmdb then
          .ok (.err "Media not found in TMDB" 404)
        else
          let first := data.head?.getD { id := none, release_date := none, title := none }
          let release_date := first.release_date
          let title := first.title
          match fetch_rotten_tomatoes env (pyStr title) with
          | .error e => .error e
          | .ok rtResults =>
            match title_match title release_date rtResults with
            | .error e => .error e
            | .ok none => .ok (.err "No matching result found in Rotten Tomatoes" 404)
            | .ok (some rtResult) =>
              match fetch_rt_videos env (rtResult.link ++ "/videos") with
              | .error e => .error e
              | .ok videos =>
                if !videosTruthy videos then
                  .ok (.err "No videos found on Rotten Tomatoes" 404)
                else
                  let trailers := (videos.getD []).filter
                    (fun video => video.videoType.getD "" == "TRAILER")
                  let formated_trailers := trailers.map (fun trailer =>
                    ({ trailers := trailer.file, provider := trailer.title,
                       thumbnail := trailer.thumbnail } : TrailerLink))
                  .ok (.meta { id := media_id, type := media_type,
                               name := title, links := formated_trailers })

/-- A cache entry: the stored view response together with the timeout it was
written with. -/
structure CacheEntry where
  value : Resp
  timeout : Nat
deriving Repr, DecidableEq

/-- The cache store.  flask_caching's key for `cached(query_string=True)` is a
hash of `request.path` and the ordered query arguments, so two requests share
an entry exactly when path and query string agree; the key is modelled as that
pair. -/
def CacheStore : Type := List ((String × String) × CacheEntry)

instance : DecidableEq CacheStore := by
  unfold CacheStore
  infer_instance

/-- Cache lookup for a key. -/
def cacheGet (st : CacheStore) (k : String × String) : Option CacheEntry :=
  (st.find? (fun e => e.1 == k)).map (fun e => e.2)

/-- Cache write for a key (replacing any previous entry). -/
def cacheSet (st : CacheStore) (k : String × String) (v : Resp) (t : Nat) : CacheStore :=
  (k, { value := v, timeout := t }) :: st.filter (fun e => !(e.1 == k))

/-- `@cache.cached(timeout=2592000, query_string=True)` around `get_trailer`
(src/app.py line 99).  Modelled from flask_caching's `cached` decorator with
its defaults: on a hit the stored response is returned without running the
view; on a miss the view runs and — since no `response_filter` is configured —
its return value is stored whatever its status code.  Only a view that raises
leaves the cache unwritten (the exception propagates before `cache.set`). -/
def cached_get_trailer (st : CacheStore) (env : Env)
    (media_type media_id query : String) : Except PyErr (Resp × CacheStore) :=
  let key := ("/meta/" ++ media_type ++ "/" ++ media_id, query)
  match cacheGet st key with
  | some entry => .ok (entry.value, st)
  | none =>
    match get_trailer env media_type media_id with
    | .error e => .error e
    | .ok rv => .ok (rv, cacheSet st key rv 2592000)

/-! Concrete fixtures used by the counterexamples and witnesses. -/

/-- A TMDB find response locating Inception. -/
def tmdbInception : TMDBResp :=
  { status_code := 200,
    movie_results :=
      [{ id := some 27205, release_date := some "2010-07-16", title := some "Inception" }],
    tv_results := [] }

/-- A well-formed search row for Inception. -/
def rowInception : SearchRow :=
  { info_name := some "Inception",
    thumbnail_href := some "https://www.rottentomatoes.com/m/inception",
    img_src := some "inception.jpg",
    cast := some "Leonardo DiCaprio,Elliot Page",
    release_year := some "2010",
    tomatometer_score := some "87",
    tomatometer_is_certified := some "true" }

/-- A search row whose `info-name` anchor is missing. -/
def rowNoTitle : SearchRow :=
  { info_name := none,
    thumbnail_href := some "https://www.rottentomatoes.com/m/other",
    img_src := some "other.jpg",
    cast := none,
    release_year := some "2010",
    tomatometer_score := none,
    tomatometer_is_certified := none }

/-- A non-trailer video descriptor. -/
def videoClip : RTVideo :=
  { videoType := some "CLIP", file := "clip.mp4", title := "Clip", thumbnail := "clip.jpg" }

/-- A second non-trailer video descriptor. -/
def videoFeaturette : RTVideo :=
  { videoType := some "FEATURETTE", file := "feat.mp4", title := "Featurette",
    thumbnail := "feat.jpg" }

/-- A trailer video descriptor. -/
def videoTrailer : RTVideo :=
  { videoType := some "TRAILER", file := "trailer.mp4", title := "YouTube",
    thumbnail := "trailer.jpg" }

/-- An environment where every outbound call fails at the network level; no
pipeline step past validation can be reached without raising. -/
def envDead : Env :=
  { tmdb_find := fun _ => { status_code := 500, movie_results := [], tv_results := [] },
    search_page := fun _ => .error .connectionError,
    videos_page := fun _ => .error .connectionError }

/-- Environment whose videos page holds one CLIP video and no trailer. -/
def envNoTrailer : Env :=
  { tmdb_find := fun _ => tmdbInception,
    search_page := fun _ => .ok { ok := true, rows := [rowInception] },
    videos_page := fun _ => .ok { json_script := some (some [videoClip]) } }

/-- Environment whose videos page holds three videos, exactly one a TRAILER. -/
def envOneTrailer : Env :=
  { tmdb_find := fun _ => tmdbInception,
    search_page := fun _ => .ok { ok := true, rows := [rowInception] },
    videos_page := fun _ => .ok { json_script := some (some [videoClip, videoTrailer, videoFeaturette]) } }

/-- Environment where the Rotten Tomatoes search returns a non-2xx status. -/
def envSearchBadStatus : Env :=
  { tmdb_find := fun _ => tmdbInception,
    search_page := fun _ => .ok { ok := false, rows := [] },
    videos_page := fun _ => .error .connectionError }

/-- Environment where the search page has one good row, then a row with no
title anchor, then another good row. -/
def envBadRow : Env :=
  { tmdb_find := fun _ => tmdbInception,
    search_page := fun _ => .ok { ok := true, rows := [rowInception, rowNoTitle, rowInception] },
    videos_page := fun _ => .error .connectionError }

/-- Environment whose videos page has no `<script id="videos">` tag. -/
def envNoScript : Env :=
  { tmdb_find := fun _ => tmdbInception,
    search_page := fun _ => .ok { ok := true, rows := [rowInception] },
    videos_page := fun _ => .ok { json_script := none } }

/-- Environment whose videos script tag holds text that is not valid JSON. -/
def envBadJson : Env :=
  { tmdb_find := fun _ => tmdbInception,
    search_page := fun _ => .ok { ok := true, rows := [rowInception] },
    videos_page := fun _ => .ok { json_script := some none } }

/-- Environment where TMDB answers 200 with an empty `movie_results` but a
non-empty `tv_results`; the review-site calls would raise if ever made. -/
def envTvOnly : Env :=
  { tmdb_find := fun _ =>
      { status_code := 200, movie_results := [],
        tv_results := [{ id := some 1399, release_date := some "2011-04-17",
                         title := some "Game of Thrones" }] },
    search_page := fun _ => .error .connectionError,
    videos_page := fun _ => .error .connectionError }

/-- The matcher condition of src/app.py lines 137-138 as one predicate, the
claim's "first candidate where ..." scan condition. -/
def matchCond (t : String) (release_date : Option String) (r : RTCandidate) : Bool :=
  (optStrTruthy r.release_year && optStrTruthy release_date
    && pyInStr (r.release_year.getD "") (release_date.getD ""))
  && (pyLower r.title == pyLower t)

/-- The first Inception candidate of the claim's concrete example. -/
def candInception : RTCandidate :=
  { title := "Inception", link := "https://www.rottentomatoes.com/m/inception",
    image_src := "inception.jpg", cast := ["Leonardo DiCaprio"],
    release_year := some "2010", tomatometer_score := some "87",
    tomatometer_certified := true }

/-- The second candidate of the claim's concrete example, titled "Inception 2". -/
def candInception2 : RTCandidate :=
  { title := "Inception 2", link := "https://www.rottentomatoes.com/m/inception_2",
    image_src := "inception2.jpg", cast := [],
    release_year := some "2010", tomatometer_score := none,
    tomatometer_certified := false }

/-- The candidate that `fetch_rotten_tomatoes` parses from `rowInception`. -/
def candParsed : RTCandidate :=
  { title := "Inception", link := "https://www.rottentomatoes.com/m/inception",
    image_src := "inception.jpg", cast := ["Leonardo DiCaprio", "Elliot Page"],
    release_year := some "2010", tomatometer_score := some "87",
    tomatometer_certified := true }

/-- Environment whose search page is well-formed but has no result rows. -/
def envEmptyRows : Env :=
  { tmdb_find := fun _ => tmdbInception,
    search_page := fun _ => .ok { ok := true, rows := [] },
    videos_page := fun _ => .error .connectionError }

/-- Environment where the search request fails at the network level. -/
def envSearchDown : Env :=
  { tmdb_find := fun _ => tmdbInception,
    search_page := fun _ => .error .connectionError,
    videos_page := fun _ => .error .connectionError }

/-- Environment where TMDB's first movie result carries id 0. -/
def envZeroId : Env :=
  { tmdb_find := fun _ =>
      { status_code := 200,
        movie_results :=
          [{ id := some 0, release_date := some "2010-07-16", title := some "Inception" }],
        tv_results := [] },
    search_page := fun _ => .error .connectionError,
    videos_page := fun _ => .error .connectionError }

/-- A stored response used to exercise the cache-hit path. -/
def storedResp : Resp := .err "No videos found on Rotten Tomatoes" 404

/-- A cache store holding one entry for `/meta/movie/tt0111161`. -/
def stHit : CacheStore :=
  [(("/meta/movie/tt0111161", ""), { value := storedResp, timeout := 2592000 })]

/-! Theorems settling the claims. -/

/-- C1: TitleMatcher semantics.  The matching loop of `get_trailer` scans the
candidates in the given order and returns the first one whose release year is
present (non-empty, mirroring the source's truthiness test), is a substring of
the likewise-present release date, and whose title equals the resolved title
case-insensitively; when none qualifies it returns no match.  The concrete
Inception example returns the first of the two candidates. -/
theorem title_match_first_match :
    (∀ (t : String) (release_date : Option String) (results : List RTCandidate),
      title_match (some t) release_date results =
        .ok (results.find? (matchCond t release_date)))
    ∧ title_match (some "Inception") (some "2010-07-16") [candInception, candInception2] =
        .ok (some candInception) := by
  constructor
  · intro t release_date results
    induction results with
    | nil => rfl
    | cons r rest ih =>
      by_cases h1 : (optStrTruthy r.release_year && optStrTruthy release_date
          && pyInStr (r.release_year.getD "") (release_date.getD "")) = true
      · by_cases h2 : (pyLower r.title == pyLower t) = true
        · simp [title_match, List.find?, matchCond, h1, h2]
        · simp [title_match, List.find?, matchCond, h1, h2, ih]
      · simp [title_match, List.find?, matchCond, h1, ih]
  · rfl

/-- C3 counterexample: an error outcome is written to the cache.  The request
`/meta/movie/xx` produces the 400 invalid-id response, and after a cache miss
the store — empty before — holds that error response under the request's
(path, query) key with the 2,592,000-second timeout. -/
theorem cached_error_response_is_stored :
    cached_get_trailer ([] : CacheStore) envDead "movie" "xx" "" =
      .ok (.err "Invalid media ID format" 400,
        [(("/meta/movie/xx", ""),
          { value := .err "Invalid media ID format" 400, timeout := 2592000 })])
    ∧ cacheGet
        [(("/meta/movie/xx", ""),
          { value := .err "Invalid media ID format" 400, timeout := 2592000 })]
        ("/meta/movie/xx", "") =
        some { value := .err "Invalid media ID format" 400, timeout := 2592000 } :=
  ⟨rfl, rfl⟩

/-- C3 amended: the cache wrapper keys entries by (path, query string) and uses
the fixed 2,592,000-second TTL, and on a hit returns the stored payload
verbatim without re-invoking the pipeline; but on a miss it stores every view
response — error responses included — not only successful ones. -/
theorem cached_get_trailer_spec
    (st : CacheStore) (env : Env) (media_type media_id query : String) :
    (∀ entry, cacheGet st ("/meta/" ++ media_type ++ "/" ++ media_id, query) = some entry →
      cached_get_trailer st env media_type media_id query = .ok (entry.value, st))
    ∧ (∀ rv, cacheGet st ("/meta/" ++ media_type ++ "/" ++ media_id, query) = none →
        get_trailer env media_type media_id = .ok rv →
        cached_get_trailer st env media_type media_id query =
          .ok (rv, cacheSet st ("/meta/" ++ media_type ++ "/" ++ media_id, query) rv 2592000)) := by
  constructor
  · intro entry h
    simp only [cached_get_trailer, h]
  · intro rv h hrun
    simp only [cached_get_trailer, h, hrun]

/-- C3 witness: a store already holding an entry for `/meta/movie/tt0111161`
returns that entry's value unchanged, on an environment whose every outbound
call would fail — so the pipeline is demonstrably not re-invoked. -/
theorem cached_get_trailer_spec_witness :
    cached_get_trailer stHit envDead "movie" "tt0111161" "" = .ok (storedResp, stHit) :=
  (cached_get_trailer_spec stHit envDead "movie" "tt0111161" "").1
    { value := storedResp, timeout := 2592000 } rfl

/-- C4: a search-result row missing its required title anchor makes the whole
search raise `AttributeError` (aborting the request) even though the two other
rows of the page are parseable, rather than skipping just that row; a page
with zero result rows does yield the empty candidate list. -/
theorem search_row_missing_anchor_aborts_search :
    parseRow rowInception = .ok candParsed
    ∧ fetch_rotten_tomatoes envBadRow "Inception" = .error .attributeError
    ∧ fetch_rotten_tomatoes envEmptyRows "Inception" = .ok [] :=
  ⟨rfl, rfl, rfl⟩

/-- C5: resolver short-circuit.  With a valid media type and id, a TMDB find
response of status 200 whose `movie_results` is empty makes `get_trailer`
return the 404 Media-not-found body — for every behaviour of the searcher and
extractor, which are therefore never consulted — and a non-200 TMDB status
makes it return the 500 TMDB-failure body. -/
theorem get_trailer_resolver_short_circuit
    (env : Env) (media_type media_id : String) (resp : TMDBResp)
    (hmt : media_type = "movie" ∨ media_type = "series")
    (hid : pyStartsWith (stripExt media_id) "tt" = true)
    (hresp : env.tmdb_find ("https://api.themoviedb.org/3/find/" ++ stripExt media_id
      ++ "?external_source=imdb_id") = resp) :
    (resp.status_code = 200 → resp.movie_results = [] →
      get_trailer env media_type media_id = .ok (.err "Media not found in TMDB" 404))
    ∧ (resp.status_code ≠ 200 →
      get_trailer env media_type media_id = .ok (.err "Failed to fetch data from TMDB" 500)) := by
  constructor
  · intro h200 hempty
    rcases hmt with h | h <;> subst h <;>
      simp [get_trailer, hid, hresp, h200, hempty, optIntTruthy]
  · intro hne
    rcases hmt with h | h <;> subst h <;>
      simp [get_trailer, hid, hresp, hne]

/-- C5 witness: a series lookup whose find response has TV matches but an
empty `movie_results` yields the 404 Media-not-found body, and a TMDB status
of 500 yields the 500 body, on environments whose review-site calls would
raise if they were ever made. -/
theorem get_trailer_resolver_short_circuit_witness :
    get_trailer envTvOnly "series" "tt0944947" = .ok (.err "Media not found in TMDB" 404)
    ∧ get_trailer envDead "movie" "tt1375666" = .ok (.err "Failed to fetch data from TMDB" 500) :=
  ⟨(get_trailer_resolver_short_circuit envTvOnly "series" "tt0944947"
      (envTvOnly.tmdb_find ("https://api.themoviedb.org/3/find/tt0944947?external_source=imdb_id"))
      (Or.inr rfl) rfl rfl).1 rfl rfl,
   (get_trailer_resolver_short_circuit envDead "movie" "tt1375666"
      (envDead.tmdb_find ("https://api.themoviedb.org/3/find/tt1375666?external_source=imdb_id"))
      (Or.inl rfl) rfl rfl).2 (by decide)⟩

/-- C9: failures of the review-site search are not surfaced as JSON error
bodies.  A non-2xx search response makes `raise_for_status` raise an uncaught
`HTTPError`, and a network failure of the search fetch raises an uncaught
`ConnectionError`; either way the request aborts with an exception instead of
returning a `{"error": ...}` response. -/
theorem search_failures_escape_as_exceptions :
    get_trailer envSearchBadStatus "movie" "tt1375666" = .error .httpError
    ∧ get_trailer envSearchDown "movie" "tt1375666" = .error .connectionError :=
  ⟨rfl, rfl⟩

/-- Helper: once validation, TMDB resolution, the search and the matching
have all succeeded, `get_trailer` is determined by the videos fetched from the
matched candidate's page. -/
theorem get_trailer_after_match
    (env : Env) (media_type media_id : String) (t : String) (rd : Option String)
    (tm : TMDBResult) (rest tvs : List TMDBResult)
    (cands : List RTCandidate) (r : RTCandidate)
    (hmt : media_type = "movie" ∨ media_type = "series")
    (hid : pyStartsWith (stripExt media_id) "tt" = true)
    (htmdb : env.tmdb_find ("https://api.themoviedb.org/3/find/" ++ stripExt media_id
      ++ "?external_source=imdb_id") =
      { status_code := 200, movie_results := tm :: rest, tv_results := tvs })
    (hidid : optIntTruthy tm.id = true)
    (htitle : tm.title = some t)
    (hrd : tm.release_date = rd)
    (hsearch : fetch_rotten_tomatoes env t = .ok cands)
    (hmatch : title_match (some t) rd cands = .ok (some r)) :
    get_trailer env media_type media_id =
      match fetch_rt_videos env (r.link ++ "/videos") with
      | .error e => .error e
      | .ok videos =>
        if !videosTruthy videos then
          .ok (.err "No videos found on Rotten Tomatoes" 404)
        else
          .ok (.meta { id := stripExt media_id, type := media_type, name := some t,
                       links := ((videos.getD []).filter
                           (fun video => video.videoType.getD "" == "TRAILER")).map
                         (fun trailer =>
                           ({ trailers := trailer.file, provider := trailer.title,
                              thumbnail := trailer.thumbnail } : TrailerLink)) }) := by
  rcases hmt with h | h <;> subst h <;>
    simp [get_trailer, hid, htmdb, hidid, htitle, hrd, pyStr, hsearch, hmatch]

/-- C2 counterexample: a request whose extractor output is the non-empty list
`[videoClip]` containing no TRAILER entry returns the 200 success payload with
an empty `links` array, not the 404 No-videos error the claim demands. -/
theorem no_trailer_videos_yield_success :
    fetch_rt_videos envNoTrailer "https://www.rottentomatoes.com/m/inception/videos" =
      .ok (some [videoClip])
    ∧ [videoClip].filter (fun video => video.videoType.getD "" == "TRAILER") = []
    ∧ get_trailer envNoTrailer "movie" "tt1375666" =
        .ok (.meta { id := "tt1375666", type := "movie", name := some "Inception", links := [] }) :=
  ⟨rfl, rfl, rfl⟩

/-- C2 amended: when the extractor returns a non-empty video list none of
whose entries has videoType "TRAILER", the pipeline returns the 200 success
payload with an empty `links` array; the 404 No-videos error arises only when
the extractor output itself is falsy (absent or empty). -/
theorem get_trailer_no_trailer_empty_links
    (env : Env) (media_type media_id : String) (t : String) (rd : Option String)
    (tm : TMDBResult) (rest tvs : List TMDBResult)
    (cands : List RTCandidate) (r : RTCandidate) (vs : List RTVideo)
    (hmt : media_type = "movie" ∨ media_type = "series")
    (hid : pyStartsWith (stripExt media_id) "tt" = true)
    (htmdb : env.tmdb_find ("https://api.themoviedb.org/3/find/" ++ stripExt media_id
      ++ "?external_source=imdb_id") =
      { status_code := 200, movie_results := tm :: rest, tv_results := tvs })
    (hidid : optIntTruthy tm.id = true)
    (htitle : tm.title = some t)
    (hrd : tm.release_date = rd)
    (hsearch : fetch_rotten_tomatoes env t = .ok cands)
    (hmatch : title_match (some t) rd cands = .ok (some r))
    (hvid : fetch_rt_videos env (r.link ++ "/videos") = .ok (some vs))
    (hne : vs ≠ [])
    (hnone : vs.filter (fun video => video.videoType.getD "" == "TRAILER") = []) :
    get_trailer env media_type media_id =
      .ok (.meta { id := stripExt media_id, type := media_type, name := some t, links := [] }) := by
  rw [get_trailer_after_match env media_type media_id t rd tm rest tvs cands r
    hmt hid htmdb hidid htitle hrd hsearch hmatch, hvid]
  simp [videosTruthy, hne, hnone]

/-- C2 witness for the amended claim, at the concrete clip-only environment. -/
theorem get_trailer_no_trailer_empty_links_witness :
    get_trailer envNoTrailer "movie" "tt1375666" =
      .ok (.meta { id := "tt1375666", type := "movie", name := some "Inception", links := [] }) :=
  (get_trailer_no_trailer_empty_links envNoTrailer "movie" "tt1375666" "Inception"
    (some "2010-07-16")
    { id := some 27205, release_date := some "2010-07-16", title := some "Inception" }
    [] [] [candParsed] candParsed [videoClip]
    (Or.inl rfl) rfl rfl rfl rfl rfl rfl rfl rfl (by decide) rfl).trans rfl

/-- C6: extractor degradation.  When the fetched videos page has no script tag
tagged `videos`, or has one whose content is not valid JSON, the pipeline
returns the 404 No-videos error — the same outcome in both cases, with no
crash and no distinct parse-error status. -/
theorem get_trailer_extractor_degradation
    (env : Env) (media_type media_id : String) (t : String) (rd : Option String)
    (tm : TMDBResult) (rest tvs : List TMDBResult)
    (cands : List RTCandidate) (r : RTCandidate)
    (hmt : media_type = "movie" ∨ media_type = "series")
    (hid : pyStartsWith (stripExt media_id) "tt" = true)
    (htmdb : env.tmdb_find ("https://api.themoviedb.org/3/find/" ++ stripExt media_id
      ++ "?external_source=imdb_id") =
      { status_code := 200, movie_results := tm :: rest, tv_results := tvs })
    (hidid : optIntTruthy tm.id = true)
    (htitle : tm.title = some t)
    (hrd : tm.release_date = rd)
    (hsearch : fetch_rotten_tomatoes env t = .ok cands)
    (hmatch : title_match (some t) rd cands = .ok (some r))
    (hvid : env.videos_page (r.link ++ "/videos") = .ok { json_script := none }
      ∨ env.videos_page (r.link ++ "/videos") = .ok { json_script := some none }) :
    get_trailer env media_type media_id = .ok (.err "No videos found on Rotten Tomatoes" 404) := by
  rw [get_trailer_after_match env media_type media_id t rd tm rest tvs cands r
    hmt hid htmdb hidid htitle hrd hsearch hmatch]
  rcases hvid with h | h <;> simp [fetch_rt_videos, h, videosTruthy]

/-- C6 witness: both degraded pages — missing script tag, invalid JSON — give
the 404 No-videos body at the concrete Inception environments. -/
theorem get_trailer_extractor_degradation_witness :
    get_trailer envNoScript "movie" "tt1375666" =
      .ok (.err "No videos found on Rotten Tomatoes" 404)
    ∧ get_trailer envBadJson "movie" "tt1375666" =
        .ok (.err "No videos found on Rotten Tomatoes" 404) :=
  ⟨get_trailer_extractor_degradation envNoScript "movie" "tt1375666" "Inception"
      (some "2010-07-16")
      { id := some 27205, release_date := some "2010-07-16", title := some "Inception" }
      [] [] [candParsed] candParsed
      (Or.inl rfl) rfl rfl rfl rfl rfl rfl rfl (Or.inl rfl),
    get_trailer_extractor_degradation envBadJson "movie" "tt1375666" "Inception"
      (some "2010-07-16")
      { id := some 27205, release_date := some "2010-07-16", title := some "Inception" }
      [] [] [candParsed] candParsed
      (Or.inl rfl) rfl rfl rfl rfl rfl rfl rfl (Or.inr rfl)⟩

/-- C8: success-payload normalization.  When the extractor output is a truthy
video list, the success payload's `links` are exactly the TRAILER-type videos
in order of appearance, each mapped file→trailers, title→provider,
thumbnail→thumbnail. -/
theorem get_trailer_success_links
    (env : Env) (media_type media_id : String) (t : String) (rd : Option String)
    (tm : TMDBResult) (rest tvs : List TMDBResult)
    (cands : List RTCandidate) (r : RTCandidate) (vs : List RTVideo)
    (hmt : media_type = "movie" ∨ media_type = "series")
    (hid : pyStartsWith (stripExt media_id) "tt" = true)
    (htmdb : env.tmdb_find ("https://api.themoviedb.org/3/find/" ++ stripExt media_id
      ++ "?external_source=imdb_id") =
      { status_code := 200, movie_results := tm :: rest, tv_results := tvs })
    (hidid : optIntTruthy tm.id = true)
    (htitle : tm.title = some t)
    (hrd : tm.release_date = rd)
    (hsearch : fetch_rotten_tomatoes env t = .ok cands)
    (hmatch : title_match (some t) rd cands = .ok (some r))
    (hvid : fetch_rt_videos env (r.link ++ "/videos") = .ok (some vs))
    (hne : vs ≠ []) :
    get_trailer env media_type media_id =
      .ok (.meta { id := stripExt media_id, type := media_type, name := some t,
                   links := (vs.filter
                       (fun video => video.videoType.getD "" == "TRAILER")).map
                     (fun trailer =>
                       ({ trailers := trailer.file, provider := trailer.title,
                          thumbnail := trailer.thumbnail } : TrailerLink)) }) := by
  rw [get_trailer_after_match env media_type media_id t rd tm rest tvs cands r
    hmt hid htmdb hidid htitle hrd hsearch hmatch, hvid]
  simp [videosTruthy, hne]

/-- C8 witness: with three videos of which exactly one is a TRAILER, the
success payload has exactly one link, mapped from that video's file, title and
thumbnail fields. -/
theorem get_trailer_success_links_witness :
    get_trailer envOneTrailer "movie" "tt1375666" =
      .ok (.meta { id := "tt1375666", type := "movie", name := some "Inception",
                   links := [{ trailers := "trailer.mp4", provider := "YouTube",
                               thumbnail := "trailer.jpg" }] })
    ∧ [videoClip, videoTrailer, videoFeaturette].filter
        (fun video => video.videoType.getD "" == "TRAILER") = [videoTrailer] :=
  ⟨(get_trailer_success_links envOneTrailer "movie" "tt1375666" "Inception"
      (some "2010-07-16")
      { id := some 27205, release_date := some "2010-07-16", title := some "Inception" }
      [] [] [candParsed] candParsed [videoClip, videoTrailer, videoFeaturette]
      (Or.inl rfl) rfl rfl rfl rfl rfl rfl rfl rfl (by decide)).trans rfl,
    rfl⟩

/-- C10: resolution reads only `movie_results`, for series requests as much as
for movies: blanking every find response's `tv_results` never changes the
outcome; a series id whose find response has an empty `movie_results` gets the
404 Media-not-found body even when TV matches exist; and a first movie result
whose id is 0 or absent is likewise treated as not found. -/
theorem get_trailer_reads_only_movie_results
    (env : Env) (media_type media_id : String) :
    get_trailer env media_type media_id =
      get_trailer { env with tmdb_find := fun u => { env.tmdb_find u with tv_results := [] } }
        media_type media_id
    ∧ (∀ tvs, media_type = "series" →
        pyStartsWith (stripExt media_id) "tt" = true →
        env.tmdb_find ("https://api.themoviedb.org/3/find/" ++ stripExt media_id
          ++ "?external_source=imdb_id") =
          { status_code := 200, movie_results := [], tv_results := tvs } →
        get_trailer env media_type media_id = .ok (.err "Media not found in TMDB" 404))
    ∧ (∀ tm rest tvs, (media_type = "movie" ∨ media_type = "series") →
        pyStartsWith (stripExt media_id) "tt" = true →
        env.tmdb_find ("https://api.themoviedb.org/3/find/" ++ stripExt media_id
          ++ "?external_source=imdb_id") =
          { status_code := 200, movie_results := tm :: rest, tv_results := tvs } →
        tm.id = some 0 ∨ tm.id = none →
        get_trailer env media_type media_id = .ok (.err "Media not found in TMDB" 404)) := by
  refine ⟨rfl, ?_, ?_⟩
  · intro tvs hmt hid htmdb
    subst hmt
    simp [get_trailer, hid, htmdb, optIntTruthy]
  · intro tm rest tvs hmt hid htmdb hzero
    rcases hmt with h | h <;> subst h <;> rcases hzero with h0 | h0 <;>
      simp [get_trailer, hid, htmdb, optIntTruthy, h0]

/-- C10 witness: a series id with TV-only matches gets Media-not-found, and so
does a movie whose first result has id 0. -/
theorem get_trailer_reads_only_movie_results_witness :
    get_trailer envTvOnly "series" "tt0944947" = .ok (.err "Media not found in TMDB" 404)
    ∧ get_trailer envZeroId "movie" "tt1375666" = .ok (.err "Media not found in TMDB" 404) :=
  ⟨(get_trailer_reads_only_movie_results envTvOnly "series" "tt0944947").2.1
      [{ id := some 1399, release_date := some "2011-04-17", title := some "Game of Thrones" }]
      rfl rfl rfl,
    (get_trailer_reads_only_movie_results envZeroId "movie" "tt1375666").2.2
      { id := some 0, release_date := some "2010-07-16", title := some "Inception" }
      [] [] (Or.inl rfl) rfl rfl (Or.inl rfl)⟩

/-- C7: media-id validation.  With a supported media type, the request is
rejected with the 400 invalid-id body exactly when the id, after everything
from the first dot on is stripped, does not start with "tt"; the pipeline
consults TMDB only at the stripped id's find URL (its result is unchanged by
any environment agreeing there); and a success payload echoes the stripped id
and the media type. -/
theorem get_trailer_media_id_validation
    (env env₂ : Env) (media_type media_id : String) :
    ((media_type = "movie" ∨ media_type = "series") →
      (get_trailer env media_type media_id = .ok (.err "Invalid media ID format" 400) ↔
        pyStartsWith (stripExt media_id) "tt" = false))
    ∧ (env.search_page = env₂.search_page → env.videos_page = env₂.videos_page →
        env.tmdb_find ("https://api.themoviedb.org/3/find/" ++ stripExt media_id
          ++ "?external_source=imdb_id") =
          env₂.tmdb_find ("https://api.themoviedb.org/3/find/" ++ stripExt media_id
            ++ "?external_source=imdb_id") →
        get_trailer env media_type media_id = get_trailer env₂ media_type media_id)
    ∧ (∀ payload, get_trailer env media_type media_id = .ok (.meta payload) →
        payload.id = stripExt media_id ∧ payload.type = media_type) := by
  refine ⟨?_, ?_, ?_⟩
  · intro hmt
    constructor
    · intro h
      by_contra hc
      rw [Bool.not_eq_false] at hc
      rcases hmt with hm | hm <;> subst hm <;>
        simp only [get_trailer, hc] at h <;>
        simp at h <;>
        repeat' first
          | simp_all
          | split at h
    · intro hc
      rcases hmt with hm | hm <;> subst hm <;> simp [get_trailer, hc]
  · intro h1 h2 h3
    simp only [get_trailer, fetch_rotten_tomatoes, fetch_rt_videos, h1, h2, h3]
  · intro payload h
    simp only [get_trailer] at h
    repeat' first
      | simp_all
      | (rw [← h]; exact ⟨rfl, rfl⟩)
      | split at h

/-- C7 witness: `abc.json` strips to `abc`, which does not start with "tt",
so the request is rejected; and the success payload for `tt1375666.json`
echoes the stripped id `tt1375666`. -/
theorem get_trailer_media_id_validation_witness :
    get_trailer envDead "movie" "abc.json" = .ok (.err "Invalid media ID format" 400)
    ∧ ({ id := "tt1375666", type := "movie", name := some "Inception",
         links := [{ trailers := "trailer.mp4", provider := "YouTube",
                     thumbnail := "trailer.jpg" }] } : MetaPayload).id =
        stripExt "tt1375666.json" :=
  ⟨((get_trailer_media_id_validation envDead envDead "movie" "abc.json").1
      (Or.inl rfl)).mpr rfl,
    ((get_trailer_media_id_validation envOneTrailer envOneTrailer "movie"
      "tt1375666.json").2.2
      { id := "tt1375666", type := "movie", name := some "Inception",
        links := [{ trailers := "trailer.mp4", provider := "YouTube",
                    thumbnail := "trailer.jpg" }] } rfl).1⟩

end TomatoTrailers
